import Mathlib

/-!
Verification development for the `datacake-cluster` replication engine.

The definitions below are a shallow embedding of the Rust sources:
`src/datacake-cluster/src/lib.rs` (write fan-out and consistency aggregation),
`src/datacake-cluster/src/keyspace.rs` (keyspace group and keyspace state
actors) and `src/datacake-cluster/src/manager.rs` (anti-entropy shard sync).
Effectful Rust code is embedded by passing the results of the external calls
(storage, RPC, channels) in explicitly as environment records, and by
returning the observable effects (messages sent, peers contacted, event
traces) alongside the result value.
-/

namespace Datacake

/-- Socket addresses are opaque peer identifiers in this development. -/
abbrev SocketAddr := Nat

/-- Modelled from the spec: `nodes_selector::ConsistencyError` (the module is
absent from the provided sources); the two variants are those named by the
error-handling design section. -/
inductive ConsistencyError where
  | NotEnoughNodes : ConsistencyError
  | ConsistencyFailure (responses : Nat) (required : Nat) (timeout : Nat) : ConsistencyError
  deriving DecidableEq, Repr

/-- Modelled from the spec: `error::DatacakeError` (the module is absent from
the provided sources); the variants are the ones constructed in `lib.rs` and
listed by the error-handling design section.  `E` is the storage error type. -/
inductive DatacakeError (E : Type) where
  | ConsistencyError (err : ConsistencyError) : DatacakeError E
  | TransportError (node : SocketAddr) (cause : Nat) : DatacakeError E
  | RpcError (node : SocketAddr) (cause : Nat) : DatacakeError E
  | StorageError (cause : E) : DatacakeError E
  deriving DecidableEq, Repr

/-- Modelled from the spec: `rpc::TIMEOUT_LIMIT` (the module is absent from the
provided sources), the per-peer call timeout, default 1 s, in milliseconds. -/
def TIMEOUT_LIMIT : Nat := 1000

/-- The success counter of the settle loop in `handle_consistency_distribution`
(`lib.rs` lines 830-856): each settled `Ok(())` increments `num_success`; every
error arm (`RpcError`, `TransportError`, other) only logs and counts nothing. -/
def numSuccess {E : Type} (results : List (Except (DatacakeError E) Unit)) : Nat :=
  results.countP fun r =>
    match r with
    | .ok _ => true
    | .error _ => false

/-- `handle_consistency_distribution` (`lib.rs` lines 813-869): dispatch
`factory` to every selected node, count successful acknowledgements, and
return `Ok` exactly when every node acknowledged; otherwise return a
`ConsistencyFailure` carrying the number of responses and the number of
required nodes.  The per-node call results are passed in as `factory`. -/
def handle_consistency_distribution {E : Type} (nodes : List SocketAddr)
    (factory : SocketAddr → Except (DatacakeError E) Unit) :
    Except (DatacakeError E) Unit :=
  let num_required := nodes.length
  let results := nodes.map factory
  let num_success := numSuccess results
  if num_success ≠ num_required then
    Except.error (DatacakeError.ConsistencyError
      (ConsistencyError.ConsistencyFailure num_success num_required TIMEOUT_LIMIT))
  else
    Except.ok ()

/-- Environment for one `DatacakeHandle` mutation (`lib.rs`): the outcome of
the node-selector resolution, the outcome of the local apply through the
keyspace group (which also writes storage), and the outcome of each per-peer
RPC dispatch closure. -/
structure HandleEnv (E : Type) where
  get_nodes : Except ConsistencyError (List SocketAddr)
  local_apply : Except (DatacakeError E) Unit
  peer_call : SocketAddr → Except (DatacakeError E) Unit

/-- `DatacakeHandle::put` (`lib.rs` lines 362-406).  Returns the call result
together with the list of peers to which the dispatch closure was executed:
resolve nodes, apply locally via `core::put_data`, then fan out.  A failure of
either early step short-circuits with an empty dispatch list. -/
def DatacakeHandle.put {E : Type} (env : HandleEnv E) :
    Except (DatacakeError E) Unit × List SocketAddr :=
  match env.get_nodes with
  | .error e => (.error (.ConsistencyError e), [])
  | .ok nodes =>
    match env.local_apply with
    | .error e => (.error e, [])
    | .ok _ => (handle_consistency_distribution nodes env.peer_call, nodes)

/-- `DatacakeHandle::put_many` (`lib.rs` lines 409-461); identical control
flow to `put` with `core::put_many_data` as the local apply. -/
def DatacakeHandle.put_many {E : Type} (env : HandleEnv E) :
    Except (DatacakeError E) Unit × List SocketAddr :=
  match env.get_nodes with
  | .error e => (.error (.ConsistencyError e), [])
  | .ok nodes =>
    match env.local_apply with
    | .error e => (.error e, [])
    | .ok _ => (handle_consistency_distribution nodes env.peer_call, nodes)

/-- `DatacakeHandle::del` (`lib.rs` lines 464-507); identical control flow
with `core::del_data` as the local apply. -/
def DatacakeHandle.del {E : Type} (env : HandleEnv E) :
    Except (DatacakeError E) Unit × List SocketAddr :=
  match env.get_nodes with
  | .error e => (.error (.ConsistencyError e), [])
  | .ok nodes =>
    match env.local_apply with
    | .error e => (.error e, [])
    | .ok _ => (handle_consistency_distribution nodes env.peer_call, nodes)

/-- `DatacakeHandle::del_many` (`lib.rs` lines 510-561); identical control
flow with `core::del_many_data` as the local apply. -/
def DatacakeHandle.del_many {E : Type} (env : HandleEnv E) :
    Except (DatacakeError E) Unit × List SocketAddr :=
  match env.get_nodes with
  | .error e => (.error (.ConsistencyError e), [])
  | .ok nodes =>
    match env.local_apply with
    | .error e => (.error e, [])
    | .ok _ => (handle_consistency_distribution nodes env.peer_call, nodes)

/-- Helper: a fan-out call result is a success. -/
def isOkResult {E : Type} (r : Except (DatacakeError E) Unit) : Bool :=
  match r with
  | .ok _ => true
  | .error _ => false

theorem numSuccess_eq_countP {E : Type} (nodes : List SocketAddr)
    (factory : SocketAddr → Except (DatacakeError E) Unit) :
    numSuccess (nodes.map factory) = nodes.countP fun n => isOkResult (factory n) := by
  unfold numSuccess isOkResult
  rw [List.countP_map]
  rfl

theorem numSuccess_all_ok {E : Type} (nodes : List SocketAddr)
    (factory : SocketAddr → Except (DatacakeError E) Unit) :
    numSuccess (nodes.map factory) = nodes.length ↔
      ∀ n ∈ nodes, factory n = .ok () := by
  rw [numSuccess_eq_countP, List.countP_eq_length]
  constructor
  · intro h n hn
    have := h n hn
    cases hfn : factory n with
    | ok v => cases v; rfl
    | error e => rw [hfn] at this; simp [isOkResult] at this
  · intro h n hn
    rw [h n hn]
    rfl

/-- C1: the fan-out aggregation `handle_consistency_distribution` returns `Ok`
iff every selected peer call returned `Ok`; in every other case it returns
`ConsistencyError::ConsistencyFailure` whose `responses` field is the number
of successful peer calls and whose `required` field is the number of selected
peers — in particular a per-peer `TransportError` or `RpcError` is never
returned directly to the caller. -/
theorem fan_out_aggregation_correct {E : Type} (nodes : List SocketAddr)
    (factory : SocketAddr → Except (DatacakeError E) Unit) :
    (handle_consistency_distribution nodes factory = .ok () ↔
       ∀ n ∈ nodes, factory n = .ok ()) ∧
    (handle_consistency_distribution nodes factory = .ok () ∨
       handle_consistency_distribution nodes factory =
         .error (.ConsistencyError (.ConsistencyFailure
           (numSuccess (nodes.map factory)) nodes.length TIMEOUT_LIMIT))) := by
  constructor
  · unfold handle_consistency_distribution
    by_cases h : numSuccess (nodes.map factory) = nodes.length
    · simp only [h, ne_eq, not_true_eq_false, if_false]
      rw [← numSuccess_all_ok nodes factory]
      simp [h]
    · simp only [ne_eq, h, not_false_eq_true, if_true]
      rw [← numSuccess_all_ok nodes factory]
      simp [h]
  · unfold handle_consistency_distribution
    by_cases h : numSuccess (nodes.map factory) = nodes.length
    · simp [h]
    · simp [h]

/-- C2: for every user mutation through the `DatacakeHandle` (`put`,
`put_many`, `del`, `del_many`), if the local apply (which also writes storage)
fails, the operation returns that very error and the list of peers that were
dispatched to is empty; conversely a non-empty dispatch list implies the local
apply succeeded, so the per-peer closures run only after a successful local
apply. -/
theorem mutation_aborts_before_dispatch {E : Type} (env : HandleEnv E)
    (nodes : List SocketAddr) (e : DatacakeError E)
    (hn : env.get_nodes = .ok nodes) (hl : env.local_apply = .error e) :
    DatacakeHandle.put env = (.error e, []) ∧
    DatacakeHandle.put_many env = (.error e, []) ∧
    DatacakeHandle.del env = (.error e, []) ∧
    DatacakeHandle.del_many env = (.error e, []) ∧
    (∀ env2 : HandleEnv E,
      ((DatacakeHandle.put env2).2 ≠ [] → env2.local_apply = .ok ()) ∧
      ((DatacakeHandle.put_many env2).2 ≠ [] → env2.local_apply = .ok ()) ∧
      ((DatacakeHandle.del env2).2 ≠ [] → env2.local_apply = .ok ()) ∧
      ((DatacakeHandle.del_many env2).2 ≠ [] → env2.local_apply = .ok ())) := by
  refine ⟨?_, ?_, ?_, ?_, ?_⟩
  · simp [DatacakeHandle.put, hn, hl]
  · simp [DatacakeHandle.put_many, hn, hl]
  · simp [DatacakeHandle.del, hn, hl]
  · simp [DatacakeHandle.del_many, hn, hl]
  · intro env2
    refine ⟨?_, ?_, ?_, ?_⟩ <;>
      · intro hne
        rcases hgn : env2.get_nodes with e2 | nodes2
        · exfalso
          apply hne
          simp_all [DatacakeHandle.put, DatacakeHandle.put_many,
            DatacakeHandle.del, DatacakeHandle.del_many]
        · rcases hla : env2.local_apply with e3 | u
          · exfalso
            apply hne
            simp_all [DatacakeHandle.put, DatacakeHandle.put_many,
              DatacakeHandle.del, DatacakeHandle.del_many]
          · cases u
            first
            | exact hla
            | rfl

/-- Witness for C2 at a concrete environment: node selection succeeds with one
peer, the local apply fails with storage error `7`. -/
theorem mutation_aborts_before_dispatch_witness :
    ({ get_nodes := .ok [4], local_apply := .error (.StorageError 7),
       peer_call := fun _ => .ok () } : HandleEnv Nat).get_nodes = .ok [4] ∧
    ({ get_nodes := .ok [4], local_apply := .error (.StorageError 7),
       peer_call := fun _ => .ok () } : HandleEnv Nat).local_apply
        = .error (.StorageError 7) ∧
    DatacakeHandle.put
      ({ get_nodes := .ok [4], local_apply := .error (.StorageError 7),
         peer_call := fun _ => .ok () } : HandleEnv Nat)
        = (.error (.StorageError 7), []) :=
  ⟨rfl, rfl,
    (mutation_aborts_before_dispatch
      ({ get_nodes := .ok [4], local_apply := .error (.StorageError 7),
         peer_call := fun _ => .ok () } : HandleEnv Nat)
      [4] (.StorageError 7) rfl rfl).1⟩

/-! ### Keyspace state (`keyspace.rs`) -/

/-- The operation messages sent to the keyspace actor (`keyspace.rs`, `enum Op`).
Keys and HLC timestamps are abstracted as naturals. -/
inductive Op where
  | set (key : Nat) (ts : Nat) : Op
  | multiSet (key_ts_pairs : List (Nat × Nat)) : Op
  | del (key : Nat) (ts : Nat) : Op
  | multiDel (key_ts_pairs : List (Nat × Nat)) : Op
  | serializeState : Op
  | purgeDeletes : Op
  deriving DecidableEq, Repr

/-- The observable completion of one `KeyspaceState` method call: a value, an
error returned to the caller, or a panic raised by an `expect`. -/
inductive Outcome (ε : Type) (α : Type) where
  | ok (val : α) : Outcome ε α
  | err (e : ε) : Outcome ε α
  | panicked (msg : String) : Outcome ε α
  deriving DecidableEq, Repr

/-- `CorruptedState` (`keyspace.rs`): (de)serialization of a state failed. -/
inductive CorruptedState where
  | mk : CorruptedState
  deriving DecidableEq, Repr

/-- Update an association list at a key, mirroring a map insert-or-replace. -/
def store_assoc (m : List (String × Nat)) (name : String) (v : Nat) :
    List (String × Nat) :=
  match m with
  | [] => [(name, v)]
  | (k, x) :: rest =>
    if k = name then (k, v) :: rest else (k, x) :: store_assoc rest name v

/-- Look a key up in an association list. -/
def lookup_assoc (m : List (String × Nat)) (name : String) : Option Nat :=
  match m with
  | [] => none
  | (k, x) :: rest => if k = name then some x else lookup_assoc rest name

/-- Environment of one `KeyspaceState` method call: the wall-clock value
`get_unix_timestamp_ms` would return, the results of the storage calls the
method makes, whether the keyspace actor task is still running (its receiver
not yet dropped), and the replies the actor would send. -/
structure KsEnv (E : Type) where
  now_ms : Nat
  storage_result : Except E Unit
  remove_many_result : Except E Unit
  actor_alive : Bool
  serialize_reply : Except CorruptedState (List Nat)
  purge_reply : List Nat

/-- Observable state surrounding a `KeyspaceState`: the group's shared
`keyspace_timestamps` counter map (one `AtomicU64` per keyspace, read by
`serialize_keyspace_counters` and `last_updated`) and the sequence of `Op`
messages successfully sent to the keyspace actor. -/
structure KsState where
  counters : List (String × Nat)
  sent_ops : List Op
  deriving DecidableEq, Repr

/-- `KeyspaceState::last_updated` (`keyspace.rs` lines 199-203): load the
update counter (initially 0). -/
def KeyspaceState.last_updated (st : KsState) (name : String) : Nat :=
  (lookup_assoc st.counters name).getD 0

/-- `KeyspaceState::put` (`keyspace.rs` lines 206-224): store the wall-clock
into the update counter, write the key metadata to storage (propagating a
storage error), then send `Op::Set` to the actor — panicking via
`expect("Contact keyspace actor")` if the actor is gone — and await the ack. -/
def KeyspaceState.put {E : Type} (env : KsEnv E) (name : String) (st : KsState)
    (key : Nat) (ts : Nat) : Outcome E Unit × KsState :=
  let st1 : KsState := { st with counters := store_assoc st.counters name env.now_ms }
  match env.storage_result with
  | .error e => (.err e, st1)
  | .ok _ =>
    if env.actor_alive then
      (.ok (), { st1 with sent_ops := st1.sent_ops ++ [Op.set key ts] })
    else
      (.panicked "Contact keyspace actor", st1)

/-- `KeyspaceState::multi_put` (`keyspace.rs` lines 227-245): same shape as
`put` with `set_many_metadata` and `Op::MultiSet`. -/
def KeyspaceState.multi_put {E : Type} (env : KsEnv E) (name : String)
    (st : KsState) (key_ts_pairs : List (Nat × Nat)) : Outcome E Unit × KsState :=
  let st1 : KsState := { st with counters := store_assoc st.counters name env.now_ms }
  match env.storage_result with
  | .error e => (.err e, st1)
  | .ok _ =>
    if env.actor_alive then
      (.ok (), { st1 with sent_ops := st1.sent_ops ++ [Op.multiSet key_ts_pairs] })
    else
      (.panicked "Contact keyspace actor", st1)

/-- `KeyspaceState::del` (`keyspace.rs` lines 248-265): same shape as `put`
with the tombstone flag set and `Op::Del`. -/
def KeyspaceState.del {E : Type} (env : KsEnv E) (name : String) (st : KsState)
    (key : Nat) (ts : Nat) : Outcome E Unit × KsState :=
  let st1 : KsState := { st with counters := store_assoc st.counters name env.now_ms }
  match env.storage_result with
  | .error e => (.err e, st1)
  | .ok _ =>
    if env.actor_alive then
      (.ok (), { st1 with sent_ops := st1.sent_ops ++ [Op.del key ts] })
    else
      (.panicked "Contact keyspace actor", st1)

/-- `KeyspaceState::multi_del` (`keyspace.rs` lines 268-285): same shape as
`multi_put` with the tombstone flag set and `Op::MultiDel`. -/
def KeyspaceState.multi_del {E : Type} (env : KsEnv E) (name : String)
    (st : KsState) (key_ts_pairs : List (Nat × Nat)) : Outcome E Unit × KsState :=
  let st1 : KsState := { st with counters := store_assoc st.counters name env.now_ms }
  match env.storage_result with
  | .error e => (.err e, st1)
  | .ok _ =>
    if env.actor_alive then
      (.ok (), { st1 with sent_ops := st1.sent_ops ++ [Op.multiDel key_ts_pairs] })
    else
      (.panicked "Contact keyspace actor", st1)

/-- `KeyspaceState::serialize` (`keyspace.rs` lines 288-297): send
`Op::Serialize` (panicking on a dead actor) and return the actor's reply. -/
def KeyspaceState.serializeState {E : Type} (env : KsEnv E) (st : KsState) :
    Outcome CorruptedState (List Nat) × KsState :=
  if env.actor_alive then
    let st1 : KsState := { st with sent_ops := st.sent_ops ++ [Op.serializeState] }
    match env.serialize_reply with
    | .ok bytes => (.ok bytes, st1)
    | .error c => (.err c, st1)
  else
    (.panicked "Contact keyspace actor", st)

/-- `KeyspaceState::purge_tombstones` (`keyspace.rs` lines 299-311): send
`Op::PurgeDeletes` (panicking on a dead actor), then remove the purged keys'
metadata from storage, propagating a storage error. -/
def KeyspaceState.purge_tombstones {E : Type} (env : KsEnv E) (name : String)
    (st : KsState) : Outcome E Unit × KsState :=
  if env.actor_alive then
    let st1 : KsState := { st with sent_ops := st.sent_ops ++ [Op.purgeDeletes] }
    match env.remove_many_result with
    | .error e => (.err e, st1)
    | .ok _ => (.ok (), st1)
  else
    (.panicked "Contact keyspace actor", st)

theorem lookup_store_assoc (m : List (String × Nat)) (name : String) (v : Nat) :
    lookup_assoc (store_assoc m name v) name = some v := by
  induction m with
  | nil => simp [store_assoc, lookup_assoc]
  | cons hd tl ih =>
    obtain ⟨k, x⟩ := hd
    by_cases hk : k = name
    · simp [store_assoc, lookup_assoc, hk]
    · simp [store_assoc, lookup_assoc, hk, ih]

/-- C3: for every mutation entry point of the keyspace façade
(`KeyspaceState::put`, `multi_put`, `del`, `multi_del`), if the storage
metadata write fails, the method returns that very error and no operation
message is sent to the keyspace actor — the sequence of ops received by the
actor, and hence the CRDT set it folds them into, is unchanged. -/
theorem keyspace_storage_error_leaves_crdt {E : Type} (env : KsEnv E)
    (name : String) (st : KsState) (key ts : Nat)
    (key_ts_pairs : List (Nat × Nat)) (e : E)
    (h : env.storage_result = .error e) :
    ((KeyspaceState.put env name st key ts).1 = .err e ∧
      (KeyspaceState.put env name st key ts).2.sent_ops = st.sent_ops) ∧
    ((KeyspaceState.multi_put env name st key_ts_pairs).1 = .err e ∧
      (KeyspaceState.multi_put env name st key_ts_pairs).2.sent_ops = st.sent_ops) ∧
    ((KeyspaceState.del env name st key ts).1 = .err e ∧
      (KeyspaceState.del env name st key ts).2.sent_ops = st.sent_ops) ∧
    ((KeyspaceState.multi_del env name st key_ts_pairs).1 = .err e ∧
      (KeyspaceState.multi_del env name st key_ts_pairs).2.sent_ops = st.sent_ops) := by
  refine ⟨⟨?_, ?_⟩, ⟨?_, ?_⟩, ⟨?_, ?_⟩, ⟨?_, ?_⟩⟩ <;>
    simp [KeyspaceState.put, KeyspaceState.multi_put, KeyspaceState.del,
      KeyspaceState.multi_del, h]

/-- Witness for C3: a concrete environment whose metadata write fails with
storage error `3`; the `put` returns `err 3` and the actor inbox stays empty. -/
theorem keyspace_storage_error_leaves_crdt_witness :
    ({ now_ms := 42, storage_result := .error 3, remove_many_result := .ok (),
       actor_alive := true, serialize_reply := .ok [], purge_reply := [] } :
        KsEnv Nat).storage_result = .error 3 ∧
    (KeyspaceState.put
        ({ now_ms := 42, storage_result := .error 3, remove_many_result := .ok (),
           actor_alive := true, serialize_reply := .ok [], purge_reply := [] } :
            KsEnv Nat)
        "ks" ⟨[], []⟩ 1 2).1 = .err 3 :=
  ⟨rfl,
    (keyspace_storage_error_leaves_crdt
      ({ now_ms := 42, storage_result := .error 3, remove_many_result := .ok (),
         actor_alive := true, serialize_reply := .ok [], purge_reply := [] } :
          KsEnv Nat)
      "ks" ⟨[], []⟩ 1 2 [(5, 6)] 3 rfl).1.1⟩

/-- C9: for every `KeyspaceState` operation that contacts the actor (`put`,
`multi_put`, `del`, `multi_del`, `serialize`, `purge_tombstones`), if the
actor task has terminated (receiver dropped) by the time the channel send
runs, the call panics via `expect("Contact keyspace actor")` rather than
returning an error value; for the four mutations the storage write must have
succeeded for control to reach the send. -/
theorem dead_actor_send_panics {E : Type} (env : KsEnv E) (name : String)
    (st : KsState) (key ts : Nat) (key_ts_pairs : List (Nat × Nat))
    (hdead : env.actor_alive = false) (hok : env.storage_result = .ok ()) :
    (KeyspaceState.put env name st key ts).1 = .panicked "Contact keyspace actor" ∧
    (KeyspaceState.multi_put env name st key_ts_pairs).1
      = .panicked "Contact keyspace actor" ∧
    (KeyspaceState.del env name st key ts).1 = .panicked "Contact keyspace actor" ∧
    (KeyspaceState.multi_del env name st key_ts_pairs).1
      = .panicked "Contact keyspace actor" ∧
    (KeyspaceState.serializeState env st).1 = .panicked "Contact keyspace actor" ∧
    (KeyspaceState.purge_tombstones env name st).1
      = .panicked "Contact keyspace actor" := by
  refine ⟨?_, ?_, ?_, ?_, ?_, ?_⟩ <;>
    simp [KeyspaceState.put, KeyspaceState.multi_put, KeyspaceState.del,
      KeyspaceState.multi_del, KeyspaceState.serializeState,
      KeyspaceState.purge_tombstones, hdead, hok]

/-- Witness for C9: with the actor gone and storage healthy, a concrete `put`
panics with the `expect` message. -/
theorem dead_actor_send_panics_witness :
    ({ now_ms := 9, storage_result := .ok (), remove_many_result := .ok (),
       actor_alive := false, serialize_reply := .ok [], purge_reply := [] } :
        KsEnv Nat).actor_alive = false ∧
    (KeyspaceState.put
        ({ now_ms := 9, storage_result := .ok (), remove_many_result := .ok (),
           actor_alive := false, serialize_reply := .ok [], purge_reply := [] } :
            KsEnv Nat)
        "ks" ⟨[], []⟩ 1 2).1 = .panicked "Contact keyspace actor" :=
  ⟨rfl,
    (dead_actor_send_panics
      ({ now_ms := 9, storage_result := .ok (), remove_many_result := .ok (),
         actor_alive := false, serialize_reply := .ok [], purge_reply := [] } :
          KsEnv Nat)
      "ks" ⟨[], []⟩ 1 2 [(5, 6)] rfl rfl).1⟩

/-- C10: each `KeyspaceState` mutation stores the current wall-clock into the
shared last-updated counter before the storage write is attempted, so even
when the mutation fails with a storage error, `last_updated` and the counter
map read by `serialize_keyspace_counters` already hold the new wall-clock. -/
theorem counter_advanced_despite_storage_error {E : Type} (env : KsEnv E)
    (name : String) (st : KsState) (key ts : Nat)
    (key_ts_pairs : List (Nat × Nat)) (e : E)
    (h : env.storage_result = .error e) :
    ((KeyspaceState.put env name st key ts).1 = .err e ∧
      KeyspaceState.last_updated (KeyspaceState.put env name st key ts).2 name
        = env.now_ms ∧
      lookup_assoc (KeyspaceState.put env name st key ts).2.counters name
        = some env.now_ms) ∧
    KeyspaceState.last_updated (KeyspaceState.multi_put env name st key_ts_pairs).2
      name = env.now_ms ∧
    KeyspaceState.last_updated (KeyspaceState.del env name st key ts).2 name
      = env.now_ms ∧
    KeyspaceState.last_updated (KeyspaceState.multi_del env name st key_ts_pairs).2
      name = env.now_ms := by
  refine ⟨⟨?_, ?_, ?_⟩, ?_, ?_, ?_⟩ <;>
    simp [KeyspaceState.put, KeyspaceState.multi_put, KeyspaceState.del,
      KeyspaceState.multi_del, KeyspaceState.last_updated, h,
      lookup_store_assoc]

/-- Witness for C10: a failing `put` still advances the counter to the
wall-clock value `77`. -/
theorem counter_advanced_despite_storage_error_witness :
    ({ now_ms := 77, storage_result := .error 3, remove_many_result := .ok (),
       actor_alive := true, serialize_reply := .ok [], purge_reply := [] } :
        KsEnv Nat).storage_result = .error 3 ∧
    KeyspaceState.last_updated
      (KeyspaceState.put
        ({ now_ms := 77, storage_result := .error 3, remove_many_result := .ok (),
           actor_alive := true, serialize_reply := .ok [], purge_reply := [] } :
            KsEnv Nat)
        "ks" ⟨[("ks", 5)], []⟩ 1 2).2 "ks" = 77 :=
  ⟨rfl,
    ((counter_advanced_despite_storage_error
      ({ now_ms := 77, storage_result := .error 3, remove_many_result := .ok (),
         actor_alive := true, serialize_reply := .ok [], purge_reply := [] } :
          KsEnv Nat)
      "ks" ⟨[("ks", 5)], []⟩ 1 2 [(5, 6)] 3 rfl).1.2).1⟩

/-! ### Anti-entropy shard sync (`manager.rs`) -/

/-- The sync trigger of `handle_node_state_change` (`manager.rs` lines
278-284): the shard is skipped iff `new == old && !(new == 0 || old == 0)`;
this definition is the negation, i.e. `true` when the shard is enqueued for
reconciliation. -/
def shard_should_sync (fresh old : Nat) : Bool :=
  !(fresh == old && !(fresh == 0 || old == 0))

/-- Written from the spec's words, for comparison with `shard_should_sync`:
reconciliation is triggered for "every keyspace whose value increased (or
whose value is 0)". -/
def spec_reconcile_trigger (fresh old : Nat) : Bool :=
  (old < fresh) || (fresh == 0)

/-- The message one spawned sync task of `handle_node_state_change`
(`manager.rs` lines 278-315) contributes to the flume channel for a given
shard id: if the shard triggered a sync and its `handle_shard_change` future
finished without error (`sync_ok`), the task sends `(shard_id, new)`; a
skipped shard spawns no task and a failed task only logs and sends nothing.
Either way the task drops its `tx` clone when it ends. -/
def sync_task_message (new_state previous_state : List Nat)
    (sync_ok : Nat → Bool) (shard_id : Nat) : Option (Nat × Nat) :=
  match new_state.get? shard_id with
  | none => none
  | some fresh =>
    if shard_should_sync fresh (previous_state.getD shard_id 0) && sync_ok shard_id then
      some (shard_id, fresh)
    else none

/-- All messages the spawned sync tasks of one `handle_node_state_change`
call send, in shard order (the per-shard concurrency is a 1-permit semaphore
and the final state is order-independent anyway since shard ids are
distinct). -/
def sync_messages (new_state previous_state : List Nat)
    (sync_ok : Nat → Bool) : List (Nat × Nat) :=
  (List.range previous_state.length).filterMap
    (sync_task_message new_state previous_state sync_ok)

/-- The body effect of the receive loop (`manager.rs` lines 317-319): every
received `(shard_id, aligned_ts)` is written into `previous_state`. -/
def apply_messages (previous_state : List Nat) (msgs : List (Nat × Nat)) :
    List Nat :=
  match msgs with
  | [] => previous_state
  | (shard_id, aligned_ts) :: rest =>
    apply_messages (previous_state.set shard_id aligned_ts) rest

/-- How a `while let Ok(..) = rx.recv_async().await` loop over a flume
channel ends once the spawned tasks have finished: it `returns` control when
the channel disconnects (every sender dropped), and otherwise stays
`blocked` on `recv_async` forever. -/
inductive RecvLoopResult where
  | returns (previous_state : List Nat) : RecvLoopResult
  | blocked (previous_state : List Nat) : RecvLoopResult
  deriving DecidableEq, Repr

/-- The receive loop of `handle_node_state_change` (`manager.rs` lines
317-319): drain the queued messages into `previous_state`; on an empty queue
`recv_async` yields `Err(Disconnected)` — ending the loop — only if every
sender is gone, so with the function's local sender still live
(`local_tx_live`) the loop blocks forever instead. -/
def recv_loop (local_tx_live : Bool) (msgs : List (Nat × Nat))
    (previous_state : List Nat) : RecvLoopResult :=
  match msgs with
  | [] =>
    if local_tx_live then .blocked previous_state else .returns previous_state
  | (shard_id, aligned_ts) :: rest =>
    recv_loop local_tx_live rest (previous_state.set shard_id aligned_ts)

/-- `handle_node_state_change` (`manager.rs` lines 264-322): spawn a sync
task per triggered shard, then run the receive loop.  The function-local
`tx` created at line 276 is cloned into every task but is itself never
dropped before the loop, so the loop runs with a live local sender
(`true`). -/
def handle_node_state_change (new_state previous_state : List Nat)
    (sync_ok : Nat → Bool) : RecvLoopResult :=
  recv_loop true (sync_messages new_state previous_state sync_ok) previous_state

/-- Counterexample for C4: the claim says reconciliation triggers exactly when
the counter increased or is 0 — but for a probed value that *decreased* to a
non-zero value (50 after 100) the code still triggers a sync, while the
claimed condition says skip. -/
theorem reconcile_trigger_not_increase_only :
    shard_should_sync 50 100 = true ∧ spec_reconcile_trigger 50 100 = false := by
  decide

/-- C4 (amended): on each poller tick a shard is enqueued for reconciliation
exactly when the probed counter value *differs* from the last-known value or
the probed value is 0 (the unknown/initial-state signal); a shard whose
counter is unchanged and non-zero is skipped. -/
theorem reconcile_trigger_characterization (fresh old : Nat) :
    (shard_should_sync fresh old = true ↔ (fresh ≠ old ∨ fresh = 0)) ∧
    (shard_should_sync fresh old = false ↔ (fresh = old ∧ fresh ≠ 0)) := by
  by_cases h1 : fresh = old <;> by_cases h2 : fresh = 0 <;>
    simp_all [shard_should_sync]

theorem recv_loop_live_blocked (msgs : List (Nat × Nat)) (prev : List Nat) :
    recv_loop true msgs prev = .blocked (apply_messages prev msgs) := by
  induction msgs generalizing prev with
  | nil => rfl
  | cons hd rest ih =>
    obtain ⟨shard_id, aligned_ts⟩ := hd
    simp [recv_loop, apply_messages, ih]

theorem sync_task_message_eq_some (new_state previous_state : List Nat)
    (sync_ok : Nat → Bool) (a : Nat) (p : Nat × Nat)
    (h : sync_task_message new_state previous_state sync_ok a = some p) :
    p.1 = a ∧ new_state.get? a = some p.2 ∧
      (shard_should_sync p.2 (previous_state.getD a 0) && sync_ok a) = true := by
  unfold sync_task_message at h
  split at h
  next => cases h
  next fresh hget =>
    split at h
    next hc =>
      injection h with h2
      subst h2
      exact ⟨rfl, hget, hc⟩
    next => cases h

theorem sync_messages_keys_distinct (new_state previous_state : List Nat)
    (sync_ok : Nat → Bool) :
    List.Pairwise (fun p q : Nat × Nat => p.1 ≠ q.1)
      (sync_messages new_state previous_state sync_ok) := by
  unfold sync_messages
  rw [List.pairwise_filterMap]
  refine List.Pairwise.imp ?_ (List.pairwise_lt_range previous_state.length)
  intro a b hab p hp q hq
  have h1 := (sync_task_message_eq_some new_state previous_state sync_ok a p
    (Option.mem_def.mp hp)).1
  have h2 := (sync_task_message_eq_some new_state previous_state sync_ok b q
    (Option.mem_def.mp hq)).1
  rw [h1, h2]
  exact Nat.ne_of_lt hab

theorem apply_messages_get_of_no_key :
    ∀ (msgs : List (Nat × Nat)) (prev : List Nat) (i : Nat),
      (∀ p ∈ msgs, p.1 ≠ i) →
      (apply_messages prev msgs).get? i = prev.get? i := by
  intro msgs
  induction msgs with
  | nil => intro prev i _; rfl
  | cons hd rest ih =>
    intro prev i h
    obtain ⟨j, w⟩ := hd
    have hj : j ≠ i := h (j, w) (List.mem_cons_self _ _)
    rw [apply_messages, ih _ i (fun p hp => h p (List.mem_cons_of_mem _ hp))]
    simp [List.get?_eq_getElem?, List.getElem?_set_ne hj]

theorem apply_messages_get_of_mem :
    ∀ (msgs : List (Nat × Nat)) (prev : List Nat) (i v : Nat),
      i < prev.length → (i, v) ∈ msgs →
      List.Pairwise (fun p q : Nat × Nat => p.1 ≠ q.1) msgs →
      (apply_messages prev msgs).get? i = some v := by
  intro msgs
  induction msgs with
  | nil => intro prev i v _ hmem _; cases hmem
  | cons hd rest ih =>
    intro prev i v hlen hmem hdist
    obtain ⟨j, w⟩ := hd
    rcases List.mem_cons.mp hmem with heq | hmem2
    · injection heq with hi hv
      subst hi
      subst hv
      have hrest : ∀ p ∈ rest, p.1 ≠ i := by
        intro p hp
        exact Ne.symm ((List.pairwise_cons.mp hdist).1 p hp)
      rw [apply_messages, apply_messages_get_of_no_key rest _ i hrest]
      simp [List.get?_eq_getElem?, List.getElem?_set_self hlen]
    · rw [apply_messages]
      exact ih _ i v (by simpa using hlen) hmem2 (List.pairwise_cons.mp hdist).2

/-- C6 (code bug): the bookkeeping is as the claim says — the counter for a
shard whose sync failed (or was skipped) keeps its old value, and only a
successful sync stores the probed value — but the claim's consequence "the
next tick retries" never happens: the function-local flume sender created at
`manager.rs` line 276 is never dropped, so once the spawned tasks finish the
`rx.recv_async` loop at line 317 can never observe a disconnect;
`handle_node_state_change` blocks forever instead of returning, and the
poller, which awaits it inline, never reaches another `interval.tick()`. -/
theorem sync_loop_blocks_forever (new_state previous_state : List Nat)
    (sync_ok : Nat → Bool) (i fresh old : Nat)
    (hold : previous_state.get? i = some old)
    (hfresh : new_state.get? i = some fresh) :
    handle_node_state_change new_state previous_state sync_ok =
      RecvLoopResult.blocked
        (apply_messages previous_state
          (sync_messages new_state previous_state sync_ok)) ∧
    (∀ (ns ps : List Nat) (ok : Nat → Bool) (ret : List Nat),
      handle_node_state_change ns ps ok ≠ RecvLoopResult.returns ret) ∧
    (apply_messages previous_state
        (sync_messages new_state previous_state sync_ok)).get? i
      = some (if shard_should_sync fresh old && sync_ok i then fresh else old) ∧
    (sync_ok i = false →
      (apply_messages previous_state
          (sync_messages new_state previous_state sync_ok)).get? i = some old) ∧
    handle_node_state_change [8] [3] (fun _ => false)
      = RecvLoopResult.blocked [3] := by
  obtain ⟨hlen, -⟩ := List.get?_eq_some.mp hold
  have hgetElem : previous_state[i]? = some old := by
    rw [← List.get?_eq_getElem?]
    exact hold
  have hfreshElem : new_state[i]? = some fresh := by
    rw [← List.get?_eq_getElem?]
    exact hfresh
  have hgetd : previous_state.getD i 0 = old := by
    simp [List.getD_eq_getElem?_getD, hgetElem]
  have hchar : (apply_messages previous_state
      (sync_messages new_state previous_state sync_ok)).get? i
      = some (if shard_should_sync fresh old && sync_ok i then fresh else old) := by
    by_cases hc : (shard_should_sync fresh old && sync_ok i) = true
    · obtain ⟨h1, h2⟩ := Bool.and_eq_true_iff.mp hc
      have hmsg : sync_task_message new_state previous_state sync_ok i
          = some (i, fresh) := by
        simp [sync_task_message, hfreshElem, hgetElem, h1, h2]
      have hmem : (i, fresh) ∈ sync_messages new_state previous_state sync_ok :=
        List.mem_filterMap.mpr ⟨i, List.mem_range.mpr hlen, hmsg⟩
      rw [apply_messages_get_of_mem _ _ _ _ hlen hmem
        (sync_messages_keys_distinct new_state previous_state sync_ok), if_pos hc]
    · have hnokey : ∀ p ∈ sync_messages new_state previous_state sync_ok,
          p.1 ≠ i := by
        intro p hp hpi
        obtain ⟨a, -, ha⟩ := List.mem_filterMap.mp hp
        obtain ⟨hkey, hget, hcond⟩ :=
          sync_task_message_eq_some new_state previous_state sync_ok a p ha
        rw [hpi] at hkey
        subst hkey
        rw [hfresh] at hget
        injection hget with hget2
        rw [hgetd, ← hget2] at hcond
        exact hc hcond
      rw [apply_messages_get_of_no_key _ _ _ hnokey, hold, if_neg hc]
  refine ⟨?_, ?_, hchar, ?_, ?_⟩
  · exact recv_loop_live_blocked _ _
  · intro ns ps ok ret h
    rw [handle_node_state_change, recv_loop_live_blocked] at h
    cases h
  · intro hfail
    rw [hchar, hfail]
    simp
  · rfl

/-- Witness for C6's theorem at the failing input: previous counter 3, probed
counter 8, the sync task fails — the call ends blocked (never returning)
with the counter still at 3. -/
theorem sync_loop_blocks_forever_witness :
    ([3] : List Nat).get? 0 = some 3 ∧ ([8] : List Nat).get? 0 = some 8 ∧
    handle_node_state_change [8] [3] (fun _ => false)
      = RecvLoopResult.blocked [3] :=
  ⟨rfl, rfl,
    (sync_loop_blocks_forever [8] [3] (fun _ => false) 0 8 3 rfl rfl).2.2.2.2⟩

/-- The externally observable steps of `handle_shard_change` (`manager.rs`
lines 339-399): the RPC and data-handler calls it performs. -/
inductive SyncEvent where
  | get_doc_set : SyncEvent
  | diffCall : SyncEvent
  | mark_tombstone_documents : SyncEvent
  | upsert_documents (batch : Nat) : SyncEvent
  | join_delete : SyncEvent
  | mergeCall : SyncEvent
  | clear_tombstone_documents : SyncEvent
  deriving DecidableEq, Repr

/-- `handle_shard_change` (`manager.rs` lines 339-399) as an event trace.
`removed`/`updated` are the diff results; `num_batches` is the number of
document batches the fetch stream yields; `sched` says how many fetch batches
complete before the concurrently spawned tombstone-marking task runs (the
task is spawned before the fetch loop and joined after it, so it may land at
any point in between); the `_ok` flags give the success of each fallible
step, a failure truncating the trace at that step.  The merge happens only
after `delete_task.await` and the full fetch loop; the purged keys' tombstone
clear happens only after the merge returns. -/
def handle_shard_change_trace (removed updated : List Nat)
    (num_batches sched : Nat) (get_ok diff_ok fetch_ok delete_ok merge_ok : Bool) :
    List SyncEvent :=
  if !get_ok then [SyncEvent.get_doc_set]
  else if !diff_ok then [SyncEvent.get_doc_set, SyncEvent.diffCall]
  else if removed.isEmpty && updated.isEmpty then
    [SyncEvent.get_doc_set, SyncEvent.diffCall]
  else
    let ups := (List.range num_batches).map SyncEvent.upsert_documents
    let mark := if removed.isEmpty then [] else [SyncEvent.mark_tombstone_documents]
    let inter := ups.take sched ++ mark ++ ups.drop sched
    [SyncEvent.get_doc_set, SyncEvent.diffCall] ++ inter ++
      (if fetch_ok then
        [SyncEvent.join_delete] ++
          (if delete_ok then
            [SyncEvent.mergeCall] ++
              (if merge_ok then [SyncEvent.clear_tombstone_documents] else [])
          else [])
      else [])

theorem mem_interleaved_shapes (removed updated : List Nat)
    (num_batches sched : Nat) (x : SyncEvent)
    (hx : x ∈ ((List.range num_batches).map SyncEvent.upsert_documents).take sched
        ++ (if removed.isEmpty then []
            else [SyncEvent.mark_tombstone_documents])
        ++ ((List.range num_batches).map SyncEvent.upsert_documents).drop sched) :
    (∃ b, x = SyncEvent.upsert_documents b) ∨
      x = SyncEvent.mark_tombstone_documents := by
  rcases List.mem_append.mp hx with h | h
  · rcases List.mem_append.mp h with h2 | h2
    · have := List.mem_of_mem_take h2
      obtain ⟨b, -, rfl⟩ := List.mem_map.mp this
      exact Or.inl ⟨b, rfl⟩
    · by_cases hr : removed.isEmpty <;> simp [hr] at h2
      exact Or.inr h2
  · have := List.mem_of_mem_drop h
    obtain ⟨b, -, rfl⟩ := List.mem_map.mp this
    exact Or.inl ⟨b, rfl⟩

/-- C5: within a single shard reconciliation, for every possible interleaving
of the concurrent tombstone-marking task with the fetch loop, the CRDT merge
happens only after both the tombstone marking and every fetched batch's
upsert have completed (they all sit strictly before the merge in the trace),
and the purged keys' tombstones are cleared only after the merge returns. -/
theorem shard_sync_merge_ordering (removed updated : List Nat)
    (num_batches sched : Nat) (merge_ok : Bool)
    (hne : (removed.isEmpty && updated.isEmpty) = false) :
    ∃ pre post,
      handle_shard_change_trace removed updated num_batches sched
          true true true true merge_ok = pre ++ SyncEvent.mergeCall :: post ∧
      SyncEvent.mergeCall ∉ pre ∧
      SyncEvent.clear_tombstone_documents ∉ pre ∧
      (removed ≠ [] → SyncEvent.mark_tombstone_documents ∈ pre) ∧
      (∀ b < num_batches, SyncEvent.upsert_documents b ∈ pre) ∧
      (merge_ok = true → post = [SyncEvent.clear_tombstone_documents]) := by
  refine ⟨[SyncEvent.get_doc_set, SyncEvent.diffCall] ++
      (((List.range num_batches).map SyncEvent.upsert_documents).take sched
        ++ (if removed.isEmpty then []
            else [SyncEvent.mark_tombstone_documents])
        ++ ((List.range num_batches).map SyncEvent.upsert_documents).drop sched)
      ++ [SyncEvent.join_delete],
    if merge_ok then [SyncEvent.clear_tombstone_documents] else [], ?_, ?_, ?_, ?_, ?_, ?_⟩
  · unfold handle_shard_change_trace
    rw [if_neg (by simp), if_neg (by simp), if_neg (by simp [hne]),
      if_pos rfl, if_pos rfl]
    cases merge_ok <;> simp
  · intro hmem
    rcases List.mem_append.mp hmem with h | h
    · rcases List.mem_append.mp h with h2 | h2
      · simp at h2
      · rcases mem_interleaved_shapes removed updated num_batches sched _ h2 with
          ⟨b, hb⟩ | hb <;> simp at hb
    · simp at h
  · intro hmem
    rcases List.mem_append.mp hmem with h | h
    · rcases List.mem_append.mp h with h2 | h2
      · simp at h2
      · rcases mem_interleaved_shapes removed updated num_batches sched _ h2 with
          ⟨b, hb⟩ | hb <;> simp at hb
    · simp at h
  · intro hr
    have hre : removed.isEmpty = false := by
      cases removed with
      | nil => exact absurd rfl hr
      | cons a l => rfl
    apply List.mem_append.mpr
    apply Or.inl
    apply List.mem_append.mpr
    apply Or.inr
    apply List.mem_append.mpr
    apply Or.inl
    apply List.mem_append.mpr
    apply Or.inr
    simp [hre]
  · intro b hb
    have hmem : SyncEvent.upsert_documents b ∈
        (List.range num_batches).map SyncEvent.upsert_documents := by
      exact List.mem_map.mpr ⟨b, List.mem_range.mpr hb, rfl⟩
    rw [← List.take_append_drop sched
      ((List.range num_batches).map SyncEvent.upsert_documents)] at hmem
    apply List.mem_append.mpr
    apply Or.inl
    apply List.mem_append.mpr
    apply Or.inr
    rcases List.mem_append.mp hmem with h | h
    · apply List.mem_append.mpr
      apply Or.inl
      apply List.mem_append.mpr
      exact Or.inl h
    · apply List.mem_append.mpr
      exact Or.inr h
  · intro hm
    rw [hm]
    rfl

/-- Witness for C5: one removed key, one updated key arriving in one batch,
marking scheduled before the fetch; merge precedes the tombstone clear. -/
theorem shard_sync_merge_ordering_witness :
    (([1] : List Nat).isEmpty && ([2] : List Nat).isEmpty) = false ∧
    (∃ pre post,
      handle_shard_change_trace [1] [2] 1 0 true true true true true
          = pre ++ SyncEvent.mergeCall :: post ∧
      SyncEvent.mergeCall ∉ pre ∧
      SyncEvent.clear_tombstone_documents ∉ pre ∧
      (([1] : List Nat) ≠ [] → SyncEvent.mark_tombstone_documents ∈ pre) ∧
      (∀ b < 1, SyncEvent.upsert_documents b ∈ pre) ∧
      (true = true → post = [SyncEvent.clear_tombstone_documents])) :=
  ⟨rfl, shard_sync_merge_ordering [1] [2] 1 0 true rfl⟩

/-! ### Keyspace group creation (`keyspace.rs`) -/

/-- The shared maps of a `KeyspaceGroup` (`keyspace.rs` lines 29-33):
`group` maps each keyspace name to its stored `KeyspaceState` handle
(handles abstracted as distinct naturals allocated from `next_handle`), and
`keyspace_timestamps` maps each name to its update counter's value. -/
structure GroupSt where
  group : List (String × Nat)
  keyspace_timestamps : List (String × Nat)
  next_handle : Nat
  deriving DecidableEq, Repr

/-- `KeyspaceGroup::add_state` (`keyspace.rs` lines 131-158): spawn a fresh
keyspace state with a fresh zeroed update counter, then *insert* it into both
maps — a map insert replaces any entry already stored under the name. -/
def add_state (st : GroupSt) (name : String) : Nat × GroupSt :=
  let handle := st.next_handle
  (handle,
    { group := store_assoc st.group name handle,
      keyspace_timestamps := store_assoc st.keyspace_timestamps name 0,
      next_handle := handle + 1 })

/-- `KeyspaceGroup::get_or_create_keyspace` (`keyspace.rs` lines 81-90):
under the read lock look the name up and return the stored handle if present;
otherwise call `add_state`. -/
def get_or_create_keyspace (st : GroupSt) (name : String) : Nat × GroupSt :=
  match lookup_assoc st.group name with
  | some handle => (handle, st)
  | none => add_state st name

/-- The progress of one caller running `get_or_create_keyspace` with the two
lock-protected critical sections taken separately: `start` — about to take
the read lock and check; `missed` — the check found nothing, about to call
`add_state`; `done` — finished holding a handle. -/
inductive CallerPhase where
  | start : CallerPhase
  | missed : CallerPhase
  | done (handle : Nat) : CallerPhase
  deriving DecidableEq, Repr

/-- One atomic step of a caller of `get_or_create_keyspace`. -/
def caller_step (name : String) (st : GroupSt) (ph : CallerPhase) :
    GroupSt × CallerPhase :=
  match ph with
  | .start =>
    match lookup_assoc st.group name with
    | some handle => (st, .done handle)
    | none => (st, .missed)
  | .missed =>
    let r := add_state st name
    (r.2, .done r.1)
  | .done handle => (st, .done handle)

/-- Interleave two callers of `get_or_create_keyspace` on the same name:
`true` in the schedule steps caller `A`, `false` steps caller `B`. -/
def run_two_callers (name : String) (sched : List Bool) (st : GroupSt)
    (pa pb : CallerPhase) : GroupSt × CallerPhase × CallerPhase :=
  match sched with
  | [] => (st, pa, pb)
  | c :: rest =>
    if c then
      let r := caller_step name st pa
      run_two_callers name rest r.1 r.2 pb
    else
      let r := caller_step name st pb
      run_two_callers name rest r.1 pa r.2

/-- Counterexample for C7: with two concurrent callers that both pass the
existence check before either inserts (schedule A-check, B-check, A-add,
B-add on an empty group), the *first* writer A stores handle 0 but B's
later `add_state` replaces it: the group ends up holding B's handle 1, so
the first writer does not win and the subsequent caller B does not receive
the existing handle. -/
theorem get_or_create_first_writer_loses :
    (run_two_callers "k" [true, false, true, false] ⟨[], [], 0⟩
        CallerPhase.start CallerPhase.start).2.1 = CallerPhase.done 0 ∧
    (run_two_callers "k" [true, false, true, false] ⟨[], [], 0⟩
        CallerPhase.start CallerPhase.start).2.2 = CallerPhase.done 1 ∧
    lookup_assoc (run_two_callers "k" [true, false, true, false] ⟨[], [], 0⟩
        CallerPhase.start CallerPhase.start).1.group "k" = some 1 := by
  refine ⟨rfl, rfl, rfl⟩

/-- C7 (amended): `get_or_create_keyspace` is idempotent when the keyspace
already exists — the stored handle is returned and neither the stored state
nor its last-updated counter is replaced; but under concurrent creation where
both callers pass the existence check before either inserts, each `add_state`
overwrites the previous one: the *last* writer wins, so the earlier caller is
left holding a handle that is no longer the one stored in the group. -/
theorem get_or_create_idempotent_amended (st1 st2 : GroupSt)
    (name1 name2 : String) (handle : Nat)
    (hsome : lookup_assoc st1.group name1 = some handle)
    (hnone : lookup_assoc st2.group name2 = none) :
    get_or_create_keyspace st1 name1 = (handle, st1) ∧
    (run_two_callers name2 [true, false, true, false] st2
        CallerPhase.start CallerPhase.start).2.1
      = CallerPhase.done st2.next_handle ∧
    (run_two_callers name2 [true, false, true, false] st2
        CallerPhase.start CallerPhase.start).2.2
      = CallerPhase.done (st2.next_handle + 1) ∧
    lookup_assoc (run_two_callers name2 [true, false, true, false] st2
        CallerPhase.start CallerPhase.start).1.group name2
      = some (st2.next_handle + 1) := by
  refine ⟨?_, ?_, ?_, ?_⟩
  · simp [get_or_create_keyspace, hsome]
  all_goals
    simp [run_two_callers, caller_step, add_state, hnone, lookup_store_assoc]

/-- Witness for C7: a group already holding keyspace `"a"` with handle 5
returns handle 5 unchanged, while on keyspace `"k"` of an empty group the
racing callers end with the group storing the second writer's handle. -/
theorem get_or_create_idempotent_amended_witness :
    lookup_assoc (GroupSt.mk [("a", 5)] [("a", 0)] 6).group "a" = some 5 ∧
    lookup_assoc (GroupSt.mk [] [] 0).group "k" = none ∧
    get_or_create_keyspace (GroupSt.mk [("a", 5)] [("a", 0)] 6) "a"
      = (5, GroupSt.mk [("a", 5)] [("a", 0)] 6) :=
  ⟨rfl, rfl,
    (get_or_create_idempotent_amended (GroupSt.mk [("a", 5)] [("a", 0)] 6)
      (GroupSt.mk [] [] 0) "a" "k" 5 rfl rfl).1⟩

end Datacake
